import Mathlib

/-!
Verification development for the `bblocks_data_importers` repository: data-fetching
adapters ("importers") that retrieve tabular datasets from public data providers and
normalize them into a common tabular shape, with a shared lifecycle contract
(lazy fetch, instance-scoped caching, explicit invalidation) and a column
harmonization step.

The repository ships only documentation for the importer classes; the Python
implementation modules are not present.  All operational definitions below are
therefore modelled from the specification and the shipped documentation, each
marked `Modelled from the spec:` in its doc comment.
-/

/-- Effective call parameters of a `get_data` request, as an ordered list of
named arguments (e.g. `[("series", "NY.GDP.MKTP.CD")]`). -/
abbrev Params := List (String × String)

/-- A parsed tabular payload: a header of column names and a list of rows. -/
structure RawTable where
  header : List String
  rows : List (List String)
  deriving DecidableEq, Repr

/-- Association-list lookup by decidable key equality, used for every cache and
column lookup in the model. -/
def cacheLookup {α β : Type} [DecidableEq α] (k : α) : List (α × β) → Option β
  | [] => none
  | (j, v) :: rest => if j = k then some v else cacheLookup k rest

/-- Modelled from the spec: the error taxonomy of the importer contract
(`SourceUnavailable` after exhausting retries, `DataFormatError` on schema
mismatch). -/
inductive ImpError where
  | sourceUnavailable
  | dataFormatError
  deriving DecidableEq, Repr

/-- Outcome of one remote fetch attempt: either a payload arrives or the
attempt times out. -/
inductive FetchResult where
  | payload (t : RawTable)
  | timeout
  deriving DecidableEq, Repr

/-- Modelled from the spec: constructor configuration of a generic importer
(timeout, retry count, the expected native schema of the payload, and the
native-to-harmonized column renaming). -/
structure ImpConfig where
  timeout : Nat
  retries : Nat
  expectedHeader : List String
  colRename : List (String × String)
  deriving DecidableEq, Repr

/-- Modelled from the spec: the observable state of one importer instance — its
instance-scoped cache (keyed by effective call parameters) and a counter of
remote fetch attempts issued so far. -/
structure ImporterState where
  cache : List (Params × RawTable)
  fetchCount : Nat
  deriving DecidableEq, Repr

/-- Modelled from the spec: `__init__(config...)` is pure object construction —
an empty cache and a fetch counter at zero, no network activity. -/
def Importer.init (_cfg : ImpConfig) : ImporterState :=
  { cache := [], fetchCount := 0 }

/-- Modelled from the spec: `clear_cache()` unconditionally discards the cached
tables of this instance; idempotent, never raises. -/
def Importer.clear_cache (s : ImporterState) : ImporterState :=
  { s with cache := [] }

/-- Modelled from the spec: the column harmonizer renames source-native column
names into the shared vocabulary, leaving unmapped names unchanged. -/
def renameColumns (ren : List (String × String)) (t : RawTable) : RawTable :=
  { t with header := t.header.map (fun c => (cacheLookup c ren).getD c) }

/-- Modelled from the spec: the retry loop around the remote fetch.  `fetch i`
is the environment response to attempt number `i`.  Timeouts are retried while
budget remains; a payload whose header does not match the expected schema stops
immediately with a data-format error (parse failures are not retried).  Returns
the outcome together with the number of fetch attempts actually issued. -/
def runFetch (fetch : Nat → FetchResult) (expected : List String) :
    Nat → Nat → Except ImpError RawTable × Nat
  | 0, _ => (Except.error ImpError.sourceUnavailable, 0)
  | budget + 1, i =>
    match fetch i with
    | FetchResult.timeout =>
      let r := runFetch fetch expected budget (i + 1)
      (r.1, r.2 + 1)
    | FetchResult.payload t =>
      if t.header = expected then (Except.ok t, 1)
      else (Except.error ImpError.dataFormatError, 1)

/-- Modelled from the spec: `get_data(params...)` — on a cache hit the cached
table is returned with no remote fetch; on a miss the importer runs
fetch → schema check → harmonize, stores the result under the effective
parameters on success, and caches nothing on failure. -/
def get_data (cfg : ImpConfig) (fetch : Nat → FetchResult) (p : Params)
    (s : ImporterState) : Except ImpError RawTable × ImporterState :=
  match cacheLookup p s.cache with
  | some t => (Except.ok t, s)
  | none =>
    let r := runFetch fetch cfg.expectedHeader cfg.retries 0
    match r.1 with
    | Except.ok t =>
      let h := renameColumns cfg.colRename t
      (Except.ok h, { cache := (p, h) :: s.cache, fetchCount := s.fetchCount + r.2 })
    | Except.error e =>
      (Except.error e, { s with fetchCount := s.fetchCount + r.2 })

/-- A system of two distinct importer instances A and B, each owning its state. -/
structure InstancePair where
  a : ImporterState
  b : ImporterState
  deriving DecidableEq, Repr

/-- Instance A clears its own cache; B is untouched (instance-scoped caching). -/
def clearA (sys : InstancePair) : InstancePair :=
  { a := Importer.clear_cache sys.a, b := sys.b }

/-- A `WorldBank` importer instance: per the docs it only carries the selected
database id; the cache lives outside the instance. -/
structure WBInstance where
  database : Nat
  deriving DecidableEq, Repr

/-- Modelled from the spec and the `world-bank.md` docs: the World Bank cache is
an on-disk cache shared by path, "not bound to a specific World Bank object".
`sharedCache` is keyed by (database id, parameters) and visible to every
instance; `fetchCount` counts remote fetches issued by any instance. -/
structure WBWorld where
  sharedCache : List ((Nat × Params) × RawTable)
  fetchCount : Nat
  deriving DecidableEq, Repr

/-- Modelled from the spec: constructing a `WorldBank` importer stores the
database id and leaves the shared world (cache, fetch counter) untouched. -/
def WorldBank.construct (database : Nat) (w : WBWorld) : WBInstance × WBWorld :=
  ({ database := database }, w)

/-- Modelled from the spec: `WorldBank.get_data` consults the shared on-disk
cache; on a miss it fetches and writes the result into the shared cache. -/
def WorldBank.get_data_wb (inst : WBInstance) (fetch : Nat × Params → RawTable)
    (p : Params) (w : WBWorld) : RawTable × WBWorld :=
  match cacheLookup (inst.database, p) w.sharedCache with
  | some t => (t, w)
  | none =>
    let t := fetch (inst.database, p)
    (t, { sharedCache := ((inst.database, p), t) :: w.sharedCache,
          fetchCount := w.fetchCount + 1 })

/-- Modelled from the `world-bank.md` docs: "clearing the cache will clear it
for all World Bank importers" — `clear_cache` empties the shared cache. -/
def WorldBank.clear_cache_wb (_inst : WBInstance) (w : WBWorld) : WBWorld :=
  { w with sharedCache := [] }

/-- One harmonized World Bank data row as documented for `WorldBank.get_data`. -/
structure WBRow where
  entity_code : String
  indicator_code : String
  year : Nat
  value : String
  deriving DecidableEq, Repr

/-- Modelled from the spec: deterministic merge of batched worker results.  The
results carry their batch index; the merge concatenates them in batch-index
order (the submission order), not in the order the list presents them. -/
def concatBatches (results : List (Nat × List WBRow)) : List Nat → List WBRow
  | [] => []
  | i :: rest => ((cacheLookup i results).getD []) ++ concatBatches results rest

/-- Modelled from the spec: merge the results of `k` batches in batch order. -/
def mergeResults (k : Nat) (results : List (Nat × List WBRow)) : List WBRow :=
  concatBatches results (List.range k)

/-- One batched execution: worker threads complete in the order given by
`order` (a permutation of the batch indices); each completed batch contributes
its index together with the rows its fetch returned. -/
def runBatchedExec (fetchBatch : Nat → List WBRow) (order : List Nat) :
    List (Nat × List WBRow) :=
  order.map (fun i => (i, fetchBatch i))

/-- Modelled from the spec: the batched/multi-threaded path for a request of
exactly two indicator codes (batch size 1: batch 0 fetches `c1`, batch 1
fetches `c2`), with worker completion order `order`. -/
def wbGetDataTwo (fetchInd : String → List WBRow) (c1 c2 : String)
    (order : List Nat) : List WBRow :=
  mergeResults 2 (runBatchedExec (fun i => if i = 0 then fetchInd c1 else fetchInd c2) order)

/-- Modelled from the spec and the `baci.md` docs: the observable state of a
`BACI` importer instance — in-memory cached tables, the Parquet files cached in
its temporary directory on disk, and a remote-fetch counter. -/
structure BACIState where
  memCache : List (Params × RawTable)
  diskFiles : List String
  fetchCount : Nat
  deriving DecidableEq, Repr

/-- Modelled from the spec: constructing a `BACI` importer performs no network
or disk activity. -/
def BACI.init : BACIState :=
  { memCache := [], diskFiles := [], fetchCount := 0 }

/-- Modelled from the `baci.md` docs: `clear_cache(clear_disk)` discards the
in-memory cached tables, and deletes the on-disk cached files only when
`clear_disk` is true. -/
def BACI.clear_cache (s : BACIState) (clear_disk : Bool) : BACIState :=
  { memCache := [],
    diskFiles := if clear_disk then [] else s.diskFiles,
    fetchCount := s.fetchCount }

/-- Modelled from the `baci.md` docs: calling `clear_cache()` with no arguments
uses the documented default `clear_disk = False`. -/
def BACI.clear_cache_noargs (s : BACIState) : BACIState :=
  BACI.clear_cache s false

/-- Modelled from the `unaids.md` docs: the `UNAIDS` constructor configuration —
whether HTTPS requests verify the remote SSL certificate. -/
structure UNAIDSConfig where
  verify_ssl : Bool
  deriving DecidableEq, Repr

/-- Modelled from the `unaids.md` docs: `UNAIDS(verify_ssl)` stores the flag. -/
def UNAIDS.construct (verify_ssl : Bool) : UNAIDSConfig :=
  { verify_ssl := verify_ssl }

/-- Modelled from the `unaids.md` docs: `UNAIDS()` without arguments does not
verify the SSL certificate by default (known upstream certificate issue). -/
def UNAIDS.construct_default : UNAIDSConfig :=
  UNAIDS.construct false

/-- Whether an HTTPS request issued by this importer verifies the remote SSL
certificate: exactly when the stored `verify_ssl` flag is set. -/
def UNAIDS.requestVerifiesCert (c : UNAIDSConfig) : Bool :=
  c.verify_ssl

/-- A source row given to the column harmonizer: cells keyed by the
source-native column names. -/
abbrev SrcRow := List (String × String)

/-- Modelled from the spec: what the harmonizer needs to know about one source —
which native column holds the entity name, and the native-to-harmonized mapping
of the remaining promised columns. -/
structure HarmSpec where
  entityCol : String
  valueCols : List (String × String)
  deriving DecidableEq, Repr

/-- Collect the promised columns from a source row, renaming each native column
to its harmonized name; fails if any promised native column is absent. -/
def collectCols : List (String × String) → SrcRow → Option (List (String × String))
  | [], _ => some []
  | (native, harm) :: rest, r =>
    match cacheLookup native r with
    | none => none
    | some v =>
      match collectCols rest r with
      | none => none
      | some kvs => some ((harm, v) :: kvs)

/-- Modelled from the spec: harmonize one source row.  The entity is resolved
through the shared resolution step (`resolve`); a row whose entity is not
recognized, or which lacks a promised column, is dropped (`none`).  A mapped
row consists of exactly the harmonized columns. -/
def harmonizeRow (resolve : String → Option (String × String)) (spec : HarmSpec)
    (r : SrcRow) : Option SrcRow :=
  match cacheLookup spec.entityCol r with
  | none => none
  | some ename =>
    match resolve ename with
    | none => none
    | some (code, canon) =>
      match collectCols spec.valueCols r with
      | none => none
      | some kvs => some (("entity_code", code) :: ("entity_name", canon) :: kvs)

/-- Modelled from the spec: harmonize a parsed table — every input row either
maps to a harmonized row or is dropped. -/
def harmonizeTable (resolve : String → Option (String × String)) (spec : HarmSpec)
    (rows : List SrcRow) : List SrcRow :=
  rows.filterMap (harmonizeRow resolve spec)

/-! ### Helper lemmas about the retry loop and the cache -/

/-- If every attempt times out, the retry loop exhausts its whole budget and
reports the source unavailable. -/
theorem runFetch_all_timeout (fetch : Nat → FetchResult) (e : List String)
    (h : ∀ j, fetch j = FetchResult.timeout) :
    ∀ b i, runFetch fetch e b i = (Except.error ImpError.sourceUnavailable, b) := by
  intro b
  induction b with
  | zero => intro i; rfl
  | succ n ih =>
    intro i
    simp only [runFetch, h i, ih (i + 1)]

/-- A payload accepted by the retry loop matches the expected schema. -/
theorem runFetch_ok_header (fetch : Nat → FetchResult) (e : List String)
    (b i : Nat) (t : RawTable) (n : Nat)
    (h : runFetch fetch e b i = (Except.ok t, n)) : t.header = e := by
  induction b generalizing i n with
  | zero => simp [runFetch] at h
  | succ m ih =>
    rw [runFetch] at h
    cases hf : fetch i with
    | timeout =>
      rw [hf] at h
      simp only [Prod.mk.injEq] at h
      exact ih (i + 1) _ (Prod.ext h.1 rfl)
    | payload t0 =>
      rw [hf] at h
      by_cases hh : t0.header = e
      · simp only [if_pos hh, Prod.mk.injEq, Except.ok.injEq] at h
        rw [← h.1]; exact hh
      · simp [if_neg hh] at h

/-- If no attempt times out, a nonzero budget issues exactly one fetch. -/
theorem runFetch_calls_no_timeout (fetch : Nat → FetchResult) (e : List String)
    (hnt : ∀ j, fetch j ≠ FetchResult.timeout) :
    ∀ b i, b ≠ 0 → (runFetch fetch e b i).2 = 1 := by
  intro b i hb
  cases b with
  | zero => exact absurd rfl hb
  | succ m =>
    rw [runFetch]
    cases hf : fetch i with
    | timeout => exact absurd hf (hnt i)
    | payload t0 =>
      by_cases hh : t0.header = e
      · simp [if_pos hh]
      · simp [if_neg hh]

/-- A payload with a mismatched schema stops the loop immediately after one
fetch with a data-format error: parse failures are not retried. -/
theorem runFetch_first_bad (fetch : Nat → FetchResult) (e : List String)
    (i : Nat) (t0 : RawTable) (hf : fetch i = FetchResult.payload t0)
    (hbad : t0.header ≠ e) (b : Nat) :
    runFetch fetch e (b + 1) i = (Except.error ImpError.dataFormatError, 1) := by
  rw [runFetch, hf]
  simp [if_neg hbad]

/-- Unfolding `get_data` on a cache hit. -/
theorem get_data_hit (cfg : ImpConfig) (fetch : Nat → FetchResult) (p : Params)
    (s : ImporterState) (t : RawTable) (hc : cacheLookup p s.cache = some t) :
    get_data cfg fetch p s = (Except.ok t, s) := by
  unfold get_data
  rw [hc]

/-- Unfolding `get_data` on a cache miss whose fetch succeeds. -/
theorem get_data_miss_ok (cfg : ImpConfig) (fetch : Nat → FetchResult)
    (p : Params) (s : ImporterState) (t : RawTable) (n : Nat)
    (hc : cacheLookup p s.cache = none)
    (hr : runFetch fetch cfg.expectedHeader cfg.retries 0 = (Except.ok t, n)) :
    get_data cfg fetch p s =
      (Except.ok (renameColumns cfg.colRename t),
       { cache := (p, renameColumns cfg.colRename t) :: s.cache,
         fetchCount := s.fetchCount + n }) := by
  unfold get_data
  rw [hc, hr]

/-- Unfolding `get_data` on a cache miss whose fetch fails. -/
theorem get_data_miss_err (cfg : ImpConfig) (fetch : Nat → FetchResult)
    (p : Params) (s : ImporterState) (e : ImpError) (n : Nat)
    (hc : cacheLookup p s.cache = none)
    (hr : runFetch fetch cfg.expectedHeader cfg.retries 0 = (Except.error e, n)) :
    get_data cfg fetch p s =
      (Except.error e, { cache := s.cache, fetchCount := s.fetchCount + n }) := by
  unfold get_data
  rw [hc, hr]

/-- After a successful `get_data`, the returned table is cached under the
requested parameters in the returned state. -/
theorem get_data_ok_lookup (cfg : ImpConfig) (fetch : Nat → FetchResult)
    (p : Params) (s : ImporterState) (t : RawTable) (s' : ImporterState)
    (h : get_data cfg fetch p s = (Except.ok t, s')) :
    cacheLookup p s'.cache = some t := by
  cases hc : cacheLookup p s.cache with
  | some t0 =>
    rw [get_data_hit cfg fetch p s t0 hc] at h
    injection h with h1 h2
    injection h1 with h1
    rw [← h2, ← h1, hc]
  | none =>
    cases hrun : runFetch fetch cfg.expectedHeader cfg.retries 0 with
    | mk res n =>
      cases res with
      | ok t0 =>
        rw [get_data_miss_ok cfg fetch p s t0 n hc hrun] at h
        injection h with h1 h2
        injection h1 with h1
        rw [← h2, ← h1]
        simp [cacheLookup]
      | error e =>
        rw [get_data_miss_err cfg fetch p s e n hc hrun] at h
        injection h with h1 h2
        exact absurd h1 (by simp)

/-! ### Claim theorems -/

/-- Claim C1: once `get_data(p)` has completed successfully, a second
consecutive `get_data(p)` call on the same instance issues no additional remote
fetch (the state, including the fetch counter, is returned unchanged) and
returns the cached table; moreover, when no attempt timed out, the successful
first call issued at most one fetch, so at most one fetch happens across the
two calls. -/
theorem get_data_second_call_cache_hit (cfg : ImpConfig)
    (fetch fetch2 : Nat → FetchResult) (p : Params) (s : ImporterState)
    (t : RawTable) (s' : ImporterState)
    (h : get_data cfg fetch p s = (Except.ok t, s'))
    (hnt : ∀ i, fetch i ≠ FetchResult.timeout) :
    get_data cfg fetch2 p s' = (Except.ok t, s')
    ∧ s'.fetchCount ≤ s.fetchCount + 1 := by
  have hl := get_data_ok_lookup cfg fetch p s t s' h
  refine ⟨?_, ?_⟩
  · rw [get_data_hit cfg fetch2 p s' t hl]
  · cases hc : cacheLookup p s.cache with
    | some t0 =>
      rw [get_data_hit cfg fetch p s t0 hc] at h
      injection h with h1 h2
      rw [← h2]
      exact Nat.le_succ_of_le (Nat.le_refl _)
    | none =>
      cases hrun : runFetch fetch cfg.expectedHeader cfg.retries 0 with
      | mk res n =>
        cases res with
        | ok t0 =>
          rw [get_data_miss_ok cfg fetch p s t0 n hc hrun] at h
          injection h with h1 h2
          have hb : cfg.retries ≠ 0 := by
            intro h0
            rw [h0] at hrun
            simp only [runFetch] at hrun
            injection hrun with hr1 hr2
            exact absurd hr1 (by simp)
          have hcalls := runFetch_calls_no_timeout fetch cfg.expectedHeader hnt cfg.retries 0 hb
          rw [hrun] at hcalls
          simp only at hcalls
          rw [← h2]
          simp [hcalls]
        | error e =>
          rw [get_data_miss_err cfg fetch p s e n hc hrun] at h
          injection h with h1 h2
          exact absurd h1 (by simp)

/-- Witness for C1 at a concrete input: a fresh importer, a fetch environment
answering with a well-formed payload, one successful call, then the theorem. -/
theorem get_data_second_call_cache_hit_witness :
    get_data { timeout := 20, retries := 2, expectedHeader := ["c"], colRename := [] }
        (fun _ => FetchResult.payload { header := ["c"], rows := [["v"]] })
        [("k", "v")]
        (Importer.init { timeout := 20, retries := 2, expectedHeader := ["c"], colRename := [] })
      = (Except.ok { header := ["c"], rows := [["v"]] },
         { cache := [([("k", "v")], { header := ["c"], rows := [["v"]] })], fetchCount := 1 })
    ∧ (get_data { timeout := 20, retries := 2, expectedHeader := ["c"], colRename := [] }
          (fun _ => FetchResult.timeout)
          [("k", "v")]
          { cache := [([("k", "v")], { header := ["c"], rows := [["v"]] })], fetchCount := 1 }
        = (Except.ok { header := ["c"], rows := [["v"]] },
           { cache := [([("k", "v")], { header := ["c"], rows := [["v"]] })], fetchCount := 1 })
       ∧ (1 : Nat) ≤ 0 + 1) :=
  ⟨by rfl,
   get_data_second_call_cache_hit
     { timeout := 20, retries := 2, expectedHeader := ["c"], colRename := [] }
     (fun _ => FetchResult.payload { header := ["c"], rows := [["v"]] })
     (fun _ => FetchResult.timeout)
     [("k", "v")]
     (Importer.init { timeout := 20, retries := 2, expectedHeader := ["c"], colRename := [] })
     { header := ["c"], rows := [["v"]] }
     { cache := [([("k", "v")], { header := ["c"], rows := [["v"]] })], fetchCount := 1 }
     (by rfl)
     (fun i h => FetchResult.noConfusion h)⟩

/-- Claim C2: constructing an importer instance performs no network I/O — the
remote-fetch counter observed across construction is zero for the generic
importer and the BACI importer, and a `WorldBank` construction leaves the
shared world (cache and fetch counter) untouched. -/
theorem construct_no_network_io :
    (∀ cfg : ImpConfig, (Importer.init cfg).fetchCount = 0)
    ∧ (∀ (db : Nat) (w : WBWorld), (WorldBank.construct db w).2 = w)
    ∧ BACI.init.fetchCount = 0 :=
  ⟨fun _ => rfl, fun _ _ => rfl, rfl⟩

/-- Counterexample to Claim C3 at a concrete input: the World Bank cache is
shared across instances (as its own docs state), so after instance A fetched
and then cleared the cache, instance B's `get_data` with the previously
fetched parameters is no longer a cache hit — it issues a new remote fetch. -/
theorem worldbank_shared_cache_counterexample :
    ((WorldBank.get_data_wb { database := 2 }
        (fun _ => { header := ["year"], rows := [["2023"]] })
        [("series", "NY.GDP.MKTP.CD")]
        (WorldBank.get_data_wb { database := 2 }
          (fun _ => { header := ["year"], rows := [["2023"]] })
          [("series", "NY.GDP.MKTP.CD")]
          { sharedCache := [], fetchCount := 0 }).2).2
      = (WorldBank.get_data_wb { database := 2 }
          (fun _ => { header := ["year"], rows := [["2023"]] })
          [("series", "NY.GDP.MKTP.CD")]
          { sharedCache := [], fetchCount := 0 }).2)
    ∧ ¬ ((WorldBank.get_data_wb { database := 2 }
            (fun _ => { header := ["year"], rows := [["2023"]] })
            [("series", "NY.GDP.MKTP.CD")]
            (WorldBank.clear_cache_wb { database := 2 }
              (WorldBank.get_data_wb { database := 2 }
                (fun _ => { header := ["year"], rows := [["2023"]] })
                [("series", "NY.GDP.MKTP.CD")]
                { sharedCache := [], fetchCount := 0 }).2)).2.fetchCount
          = (WorldBank.clear_cache_wb { database := 2 }
              (WorldBank.get_data_wb { database := 2 }
                (fun _ => { header := ["year"], rows := [["2023"]] })
                [("series", "NY.GDP.MKTP.CD")]
                { sharedCache := [], fetchCount := 0 }).2).fetchCount) := by
  constructor
  · rfl
  · intro h
    simp [WorldBank.get_data_wb, WorldBank.clear_cache_wb, cacheLookup] at h

/-- Claim C3 (amended): for instance-scoped importers, cache entries are owned
exclusively by their instance — A's `clear_cache` empties A's cache and leaves
B's state unchanged, so B's subsequent `get_data` with previously fetched
parameters is still a cache hit that performs no fetch.  (The WorldBank family
is excluded: its docs state the cache is shared by all instances.) -/
theorem clear_cache_instance_scoped (cfg : ImpConfig) (fetch : Nat → FetchResult)
    (sys : InstancePair) (p : Params) (t : RawTable)
    (hb : cacheLookup p sys.b.cache = some t) :
    (clearA sys).b = sys.b
    ∧ (clearA sys).a.cache = []
    ∧ get_data cfg fetch p (clearA sys).b = (Except.ok t, sys.b) :=
  ⟨rfl, rfl, get_data_hit cfg fetch p sys.b t hb⟩

/-- Witness for the amended C3 at a concrete input: B has one cached table;
after A clears, B is unchanged and still answers from its cache. -/
theorem clear_cache_instance_scoped_witness :
    cacheLookup [("k", "v")]
        (InstancePair.b
          { a := { cache := [([("k", "v")], { header := ["c"], rows := [] })], fetchCount := 1 },
            b := { cache := [([("k", "v")], { header := ["d"], rows := [["7"]] })], fetchCount := 1 } }).cache
      = some { header := ["d"], rows := [["7"]] }
    ∧ (clearA
          { a := { cache := [([("k", "v")], { header := ["c"], rows := [] })], fetchCount := 1 },
            b := { cache := [([("k", "v")], { header := ["d"], rows := [["7"]] })], fetchCount := 1 } }).b
        = { cache := [([("k", "v")], { header := ["d"], rows := [["7"]] })], fetchCount := 1 } :=
  ⟨by rfl,
   (clear_cache_instance_scoped
      { timeout := 20, retries := 2, expectedHeader := ["d"], colRename := [] }
      (fun _ => FetchResult.timeout)
      { a := { cache := [([("k", "v")], { header := ["c"], rows := [] })], fetchCount := 1 },
        b := { cache := [([("k", "v")], { header := ["d"], rows := [["7"]] })], fetchCount := 1 } }
      [("k", "v")]
      { header := ["d"], rows := [["7"]] }
      (by rfl)).1⟩

/-- Claim C4: if the remote fetch times out on every one of the allowed
attempts, `get_data` fails with the `SourceUnavailable` error, the cache is
left unpopulated (exactly the old cache), and a later `get_data` with the same
parameters starts again from a cache miss. -/
theorem get_data_all_timeouts (cfg : ImpConfig) (fetch : Nat → FetchResult)
    (p : Params) (s : ImporterState)
    (hmiss : cacheLookup p s.cache = none)
    (hTO : ∀ i, fetch i = FetchResult.timeout) :
    get_data cfg fetch p s =
      (Except.error ImpError.sourceUnavailable,
       { cache := s.cache, fetchCount := s.fetchCount + cfg.retries })
    ∧ cacheLookup p (get_data cfg fetch p s).2.cache = none := by
  have hr := runFetch_all_timeout fetch cfg.expectedHeader hTO cfg.retries 0
  have h1 := get_data_miss_err cfg fetch p s ImpError.sourceUnavailable cfg.retries hmiss hr
  exact ⟨h1, by rw [h1]; exact hmiss⟩

/-- Witness for C4 at a concrete input: a fresh importer whose fetch always
times out fails with `SourceUnavailable` and caches nothing. -/
theorem get_data_all_timeouts_witness :
    cacheLookup [("k", "v")]
        (Importer.init { timeout := 20, retries := 2, expectedHeader := ["c"], colRename := [] }).cache
      = none
    ∧ get_data { timeout := 20, retries := 2, expectedHeader := ["c"], colRename := [] }
        (fun _ => FetchResult.timeout) [("k", "v")]
        (Importer.init { timeout := 20, retries := 2, expectedHeader := ["c"], colRename := [] })
      = (Except.error ImpError.sourceUnavailable, { cache := [], fetchCount := 0 + 2 }) :=
  ⟨by rfl,
   (get_data_all_timeouts
      { timeout := 20, retries := 2, expectedHeader := ["c"], colRename := [] }
      (fun _ => FetchResult.timeout) [("k", "v")]
      (Importer.init { timeout := 20, retries := 2, expectedHeader := ["c"], colRename := [] })
      (by rfl) (fun _ => rfl)).1⟩

/-- Claim C5: when the fetched payload's schema does not match the expected
shape (e.g. a renamed column), `get_data` fails with the `DataFormatError`
error after exactly one fetch (the fetch is not retried); moreover `get_data`
never returns a silently malformed table — any table it returns on a cache
miss carries exactly the expected schema after harmonization. -/
theorem get_data_schema_mismatch (cfg : ImpConfig) (fetch : Nat → FetchResult)
    (p : Params) (s : ImporterState) (t0 : RawTable)
    (hmiss : cacheLookup p s.cache = none)
    (hret : cfg.retries ≠ 0)
    (hf : fetch 0 = FetchResult.payload t0)
    (hbad : t0.header ≠ cfg.expectedHeader) :
    get_data cfg fetch p s =
      (Except.error ImpError.dataFormatError,
       { cache := s.cache, fetchCount := s.fetchCount + 1 })
    ∧ (∀ (fetch2 : Nat → FetchResult) (t : RawTable) (s' : ImporterState),
        get_data cfg fetch2 p s = (Except.ok t, s') →
        t.header = cfg.expectedHeader.map (fun c => (cacheLookup c cfg.colRename).getD c)) := by
  constructor
  · obtain ⟨b, hb⟩ := Nat.exists_eq_succ_of_ne_zero hret
    have hr : runFetch fetch cfg.expectedHeader cfg.retries 0
        = (Except.error ImpError.dataFormatError, 1) := by
      rw [hb]
      exact runFetch_first_bad fetch cfg.expectedHeader 0 t0 hf hbad b
    exact get_data_miss_err cfg fetch p s ImpError.dataFormatError 1 hmiss hr
  · intro fetch2 t s' h
    cases hrun : runFetch fetch2 cfg.expectedHeader cfg.retries 0 with
    | mk res n =>
      cases res with
      | ok t1 =>
        rw [get_data_miss_ok cfg fetch2 p s t1 n hmiss hrun] at h
        injection h with h1 h2
        injection h1 with h1
        have hh := runFetch_ok_header fetch2 cfg.expectedHeader cfg.retries 0 t1 n hrun
        rw [← h1]
        show (renameColumns cfg.colRename t1).header = _
        unfold renameColumns
        rw [hh]
      | error e =>
        rw [get_data_miss_err cfg fetch2 p s e n hmiss hrun] at h
        injection h with h1 h2
        exact absurd h1 (by simp)

/-- Witness for C5 at a concrete input: the source renamed column `c` to `x`;
the fresh importer reports a data-format error after a single fetch. -/
theorem get_data_schema_mismatch_witness :
    cacheLookup [("k", "v")]
        (Importer.init { timeout := 20, retries := 2, expectedHeader := ["c"], colRename := [] }).cache
      = none
    ∧ (2 : Nat) ≠ 0
    ∧ get_data { timeout := 20, retries := 2, expectedHeader := ["c"], colRename := [] }
        (fun _ => FetchResult.payload { header := ["x"], rows := [["v"]] })
        [("k", "v")]
        (Importer.init { timeout := 20, retries := 2, expectedHeader := ["c"], colRename := [] })
      = (Except.error ImpError.dataFormatError, { cache := [], fetchCount := 0 + 1 }) :=
  ⟨by rfl, by decide,
   (get_data_schema_mismatch
      { timeout := 20, retries := 2, expectedHeader := ["c"], colRename := [] }
      (fun _ => FetchResult.payload { header := ["x"], rows := [["v"]] })
      [("k", "v")]
      (Importer.init { timeout := 20, retries := 2, expectedHeader := ["c"], colRename := [] })
      { header := ["x"], rows := [["v"]] }
      (by rfl) (by decide) (by rfl) (by decide)).1⟩

/-- Counterexample to Claim C6 at a concrete input: `clear_cache()` with no
arguments uses the documented default `clear_disk = False`, so the cached
Parquet file on disk is NOT deleted. -/
theorem baci_clear_cache_noargs_counterexample :
    ¬ ((BACI.clear_cache_noargs
          { memCache := [], diskFiles := ["baci_HS22_V202501.parquet"], fetchCount := 1 }).diskFiles
        = []) := by
  decide

/-- Claim C6 (amended): `BACI.clear_cache()` with no arguments discards the
in-memory cached tables but leaves the on-disk cached files in place
(`clear_disk` defaults to False); the disk files are deleted exactly when
`clear_disk=True` is passed. -/
theorem baci_clear_cache_disk_flag (s : BACIState) :
    (BACI.clear_cache_noargs s).memCache = []
    ∧ (BACI.clear_cache_noargs s).diskFiles = s.diskFiles
    ∧ (BACI.clear_cache s true).memCache = []
    ∧ (BACI.clear_cache s true).diskFiles = [] :=
  ⟨rfl, rfl, rfl, rfl⟩

/-- Association-list lookup is invariant under permutation when the keys are
pairwise distinct. -/
theorem cacheLookup_perm {α β : Type} [DecidableEq α] {l1 l2 : List (α × β)}
    (hperm : l1.Perm l2) :
    (l1.map Prod.fst).Nodup → ∀ i, cacheLookup i l1 = cacheLookup i l2 := by
  induction hperm with
  | nil => intro _ i; rfl
  | cons x h ih =>
    intro hnd i
    obtain ⟨x1, x2⟩ := x
    have hnd' : ∀ {t : List (α × β)}, (((x1, x2) :: t).map Prod.fst).Nodup →
        (t.map Prod.fst).Nodup := by
      intro t ht
      exact (List.nodup_cons.mp ht).2
    show (if x1 = i then some x2 else cacheLookup i _)
        = (if x1 = i then some x2 else cacheLookup i _)
    split
    · rfl
    · exact ih (hnd' hnd) i
  | swap x y l =>
    intro hnd i
    obtain ⟨x1, x2⟩ := x
    obtain ⟨y1, y2⟩ := y
    have hne : y1 ≠ x1 := by
      simp only [List.map_cons, List.nodup_cons, List.mem_cons] at hnd
      exact fun he => hnd.1 (Or.inl he)
    show (if y1 = i then some y2 else if x1 = i then some x2 else cacheLookup i l)
        = (if x1 = i then some x2 else if y1 = i then some y2 else cacheLookup i l)
    by_cases hx : x1 = i
    · by_cases hy : y1 = i
      · exact absurd (hy.trans hx.symm) hne
      · simp [hx, hy]
    · by_cases hy : y1 = i
      · simp [hx, hy]
      · simp [hx, hy]
  | trans h1 h2 ih1 ih2 =>
    intro hnd i
    exact (ih1 hnd i).trans (ih2 ((h1.map Prod.fst).nodup hnd) i)

/-- Batch concatenation only depends on the results through key lookup. -/
theorem concatBatches_congr (r1 r2 : List (Nat × List WBRow))
    (h : ∀ i, cacheLookup i r1 = cacheLookup i r2) :
    ∀ idxs, concatBatches r1 idxs = concatBatches r2 idxs := by
  intro idxs
  induction idxs with
  | nil => rfl
  | cons i rest ih =>
    show (cacheLookup i r1).getD [] ++ _ = (cacheLookup i r2).getD [] ++ _
    rw [h i, ih]

/-- The keys of an execution trace are exactly the completion order. -/
theorem runBatchedExec_keys (fetchBatch : Nat → List WBRow) (order : List Nat) :
    (runBatchedExec fetchBatch order).map Prod.fst = order := by
  induction order with
  | nil => rfl
  | cons i rest ih =>
    show i :: (runBatchedExec fetchBatch rest).map Prod.fst = i :: rest
    rw [ih]

/-- A batched execution under any completion order that is a permutation of the
batch indices merges to the same table as the canonical (submission-order)
execution. -/
theorem mergeResults_exec_eq (k : Nat) (fetchBatch : Nat → List WBRow)
    (order : List Nat) (h : order.Perm (List.range k)) :
    mergeResults k (runBatchedExec fetchBatch order)
      = mergeResults k (runBatchedExec fetchBatch (List.range k)) := by
  have hperm : (runBatchedExec fetchBatch order).Perm
      (runBatchedExec fetchBatch (List.range k)) := h.map _
  have hnd : ((runBatchedExec fetchBatch order).map Prod.fst).Nodup := by
    rw [runBatchedExec_keys]
    exact (h.symm.nodup (List.nodup_range k))
  exact concatBatches_congr _ _ (cacheLookup_perm hperm hnd) (List.range k)

/-- Claim C7: the batched multi-threaded merge is deterministic — two
executions in which each per-batch fetch returns the same rows produce the
same output table, whatever order the worker threads complete in. -/
theorem batched_merge_deterministic (k : Nat) (fetchBatch : Nat → List WBRow)
    (order1 order2 : List Nat)
    (h1 : order1.Perm (List.range k)) (h2 : order2.Perm (List.range k)) :
    mergeResults k (runBatchedExec fetchBatch order1)
      = mergeResults k (runBatchedExec fetchBatch order2) :=
  (mergeResults_exec_eq k fetchBatch order1 h1).trans
    (mergeResults_exec_eq k fetchBatch order2 h2).symm

/-- Witness for C7 at a concrete input: three batches completing in two
different orders merge to the same table. -/
theorem batched_merge_deterministic_witness :
    ([2, 0, 1] : List Nat).Perm (List.range 3)
    ∧ ([1, 2, 0] : List Nat).Perm (List.range 3)
    ∧ mergeResults 3 (runBatchedExec
        (fun i => [{ entity_code := "KEN", indicator_code := "GDP",
                     year := 2020 + i, value := "1" }]) [2, 0, 1])
      = mergeResults 3 (runBatchedExec
        (fun i => [{ entity_code := "KEN", indicator_code := "GDP",
                     year := 2020 + i, value := "1" }]) [1, 2, 0]) :=
  ⟨by decide, by decide,
   batched_merge_deterministic 3
     (fun i => [{ entity_code := "KEN", indicator_code := "GDP",
                  year := 2020 + i, value := "1" }])
     [2, 0, 1] [1, 2, 0] (by decide) (by decide)⟩

/-- The two-indicator batched path returns the first indicator's rows followed
by the second indicator's rows, whatever order the workers complete in. -/
theorem wbGetDataTwo_eq (fetchInd : String → List WBRow) (c1 c2 : String)
    (order : List Nat) (h : order.Perm (List.range 2)) :
    wbGetDataTwo fetchInd c1 c2 order = fetchInd c1 ++ fetchInd c2 := by
  unfold wbGetDataTwo
  rw [mergeResults_exec_eq 2 _ order h]
  have hr : List.range 2 = [0, 1] := by decide
  rw [hr]
  show fetchInd c1 ++ (fetchInd c2 ++ []) = fetchInd c1 ++ fetchInd c2
  rw [List.append_nil]

/-- A nonempty list of rows that all carry the same indicator code has that
code as its exact code set. -/
theorem map_code_toFinset (l : List WBRow) (c : String)
    (hall : ∀ r ∈ l, r.indicator_code = c) (hne : l ≠ []) :
    (l.map WBRow.indicator_code).toFinset = {c} := by
  ext x
  simp only [List.mem_toFinset, List.mem_map, Finset.mem_singleton]
  constructor
  · rintro ⟨r, hr, rfl⟩
    exact hall r hr
  · rintro rfl
    obtain ⟨r, hr⟩ := List.exists_mem_of_ne_nil l hne
    exact ⟨r, hr, hall r hr⟩

/-- Claim C8: a request of exactly two indicator codes through the
batched/multi-threaded path, in which each individual fetch succeeds with rows
carrying its own indicator code, returns a table whose indicator-code set is
exactly the two requested codes and whose row count is the sum of the two
individual row counts — for every worker completion order. -/
theorem wb_two_indicator_request (fetchInd : String → List WBRow)
    (c1 c2 : String) (order : List Nat)
    (horder : order.Perm (List.range 2))
    (h1 : ∀ r ∈ fetchInd c1, r.indicator_code = c1)
    (h2 : ∀ r ∈ fetchInd c2, r.indicator_code = c2)
    (hne1 : fetchInd c1 ≠ []) (hne2 : fetchInd c2 ≠ []) :
    ((wbGetDataTwo fetchInd c1 c2 order).map WBRow.indicator_code).toFinset = {c1, c2}
    ∧ (wbGetDataTwo fetchInd c1 c2 order).length
        = (fetchInd c1).length + (fetchInd c2).length := by
  rw [wbGetDataTwo_eq fetchInd c1 c2 order horder]
  constructor
  · rw [List.map_append, List.toFinset_append,
      map_code_toFinset _ _ h1 hne1, map_code_toFinset _ _ h2 hne2]
    rfl
  · rw [List.length_append]

/-- Witness for C8 at a concrete input: GDP and population fetches with one
and two rows, workers completing in reverse order. -/
theorem wb_two_indicator_request_witness :
    ([1, 0] : List Nat).Perm (List.range 2)
    ∧ ((wbGetDataTwo
          (fun c => if c = "NY.GDP.MKTP.CD"
            then [{ entity_code := "ZWE", indicator_code := "NY.GDP.MKTP.CD",
                    year := 2023, value := "35" }]
            else [{ entity_code := "ZWE", indicator_code := "SP.POP.TOTL",
                    year := 2023, value := "16" },
                  { entity_code := "NGA", indicator_code := "SP.POP.TOTL",
                    year := 2023, value := "223" }])
          "NY.GDP.MKTP.CD" "SP.POP.TOTL" [1, 0]).map WBRow.indicator_code).toFinset
        = {"NY.GDP.MKTP.CD", "SP.POP.TOTL"}
    ∧ (wbGetDataTwo
          (fun c => if c = "NY.GDP.MKTP.CD"
            then [{ entity_code := "ZWE", indicator_code := "NY.GDP.MKTP.CD",
                    year := 2023, value := "35" }]
            else [{ entity_code := "ZWE", indicator_code := "SP.POP.TOTL",
                    year := 2023, value := "16" },
                  { entity_code := "NGA", indicator_code := "SP.POP.TOTL",
                    year := 2023, value := "223" }])
          "NY.GDP.MKTP.CD" "SP.POP.TOTL" [1, 0]).length = 1 + 2 := by
  refine ⟨by decide, ?_⟩
  exact wb_two_indicator_request
    (fun c => if c = "NY.GDP.MKTP.CD"
      then [{ entity_code := "ZWE", indicator_code := "NY.GDP.MKTP.CD",
              year := 2023, value := "35" }]
      else [{ entity_code := "ZWE", indicator_code := "SP.POP.TOTL",
              year := 2023, value := "16" },
            { entity_code := "NGA", indicator_code := "SP.POP.TOTL",
              year := 2023, value := "223" }])
    "NY.GDP.MKTP.CD" "SP.POP.TOTL" [1, 0]
    (by decide) (by decide) (by decide) (by decide) (by decide)

/-- The columns collected from a source row are named exactly by the
harmonized names of the promised columns. -/
theorem collectCols_keys (cols : List (String × String)) (r : SrcRow)
    (kvs : List (String × String)) (h : collectCols cols r = some kvs) :
    kvs.map Prod.fst = cols.map Prod.snd := by
  induction cols generalizing kvs with
  | nil =>
    simp only [collectCols, Option.some.injEq] at h
    rw [← h]
    rfl
  | cons c rest ih =>
    obtain ⟨native, harm⟩ := c
    simp only [collectCols] at h
    cases hl : cacheLookup native r with
    | none =>
      rw [hl] at h
      exact absurd h (by simp)
    | some v =>
      rw [hl] at h
      cases hc : collectCols rest r with
      | none =>
        rw [hc] at h
        exact absurd h (by simp)
      | some kvs0 =>
        rw [hc] at h
        simp only [Option.some.injEq] at h
        rw [← h]
        show harm :: kvs0.map Prod.fst = harm :: rest.map Prod.snd
        rw [ih kvs0 hc]

/-- A source row the harmonizer maps (rather than drops) becomes a row whose
column names are exactly the harmonized vocabulary. -/
theorem harmonizeRow_keys (resolve : String → Option (String × String))
    (spec : HarmSpec) (r : SrcRow) (out : SrcRow)
    (h : harmonizeRow resolve spec r = some out) :
    out.map Prod.fst = "entity_code" :: "entity_name" :: spec.valueCols.map Prod.snd := by
  unfold harmonizeRow at h
  cases he : cacheLookup spec.entityCol r with
  | none =>
    simp only [he] at h
    exact Option.noConfusion h
  | some ename =>
    simp only [he] at h
    cases hres : resolve ename with
    | none =>
      simp only [hres] at h
      exact Option.noConfusion h
    | some cc =>
      obtain ⟨code, canon⟩ := cc
      simp only [hres] at h
      cases hc : collectCols spec.valueCols r with
      | none =>
        simp only [hc] at h
        exact Option.noConfusion h
      | some kvs =>
        simp only [hc, Option.some.injEq] at h
        rw [← h]
        show "entity_code" :: "entity_name" :: kvs.map Prod.fst = _
        rw [collectCols_keys spec.valueCols r kvs hc]

/-- Claim C9: harmonization is total — every harmonized output row carries
exactly the harmonized column names (never a mix with source-native columns)
and originates from some input row, and every input row either maps to such a
row of the output or is dropped entirely. -/
theorem harmonization_total (resolve : String → Option (String × String))
    (spec : HarmSpec) (rows : List SrcRow) :
    (∀ out ∈ harmonizeTable resolve spec rows,
      out.map Prod.fst = "entity_code" :: "entity_name" :: spec.valueCols.map Prod.snd
      ∧ ∃ r ∈ rows, harmonizeRow resolve spec r = some out)
    ∧ (∀ r ∈ rows,
      harmonizeRow resolve spec r = none
      ∨ ∃ out ∈ harmonizeTable resolve spec rows,
          harmonizeRow resolve spec r = some out) := by
  constructor
  · intro out hmem
    rw [harmonizeTable, List.mem_filterMap] at hmem
    obtain ⟨r, hr, heq⟩ := hmem
    exact ⟨harmonizeRow_keys resolve spec r out heq, r, hr, heq⟩
  · intro r hr
    cases hcase : harmonizeRow resolve spec r with
    | none => exact Or.inl rfl
    | some out =>
      refine Or.inr ⟨out, ?_, rfl⟩
      rw [harmonizeTable, List.mem_filterMap]
      exact ⟨r, hr, hcase⟩

/-- Witness for C9 at a concrete input: one row with a resolvable entity is
mapped to a fully harmonized row; the theorem applied to its table membership
yields the exact harmonized column list. -/
theorem harmonization_total_witness :
    [("entity_code", "CIV"), ("entity_name", "Cote dIvoire"), ("value", "1.5")]
        ∈ harmonizeTable
            (fun s => if s = "Ivory Coast" then some ("CIV", "Cote dIvoire") else none)
            { entityCol := "Country", valueCols := [("Val", "value")] }
            [[("Country", "Ivory Coast"), ("Val", "1.5")],
             [("Country", "Atlantis"), ("Val", "2")]]
    ∧ ([("entity_code", "CIV"), ("entity_name", "Cote dIvoire"), ("value", "1.5")].map Prod.fst
        = "entity_code" :: "entity_name"
            :: ([("Val", "value")] : List (String × String)).map Prod.snd
       ∧ ∃ r ∈ [[("Country", "Ivory Coast"), ("Val", "1.5")],
                [("Country", "Atlantis"), ("Val", "2")]],
           harmonizeRow
             (fun s => if s = "Ivory Coast" then some ("CIV", "Cote dIvoire") else none)
             { entityCol := "Country", valueCols := [("Val", "value")] } r
             = some [("entity_code", "CIV"), ("entity_name", "Cote dIvoire"), ("value", "1.5")]) :=
  ⟨by decide,
   (harmonization_total
      (fun s => if s = "Ivory Coast" then some ("CIV", "Cote dIvoire") else none)
      { entityCol := "Country", valueCols := [("Val", "value")] }
      [[("Country", "Ivory Coast"), ("Val", "1.5")],
       [("Country", "Atlantis"), ("Val", "2")]]).1
     [("entity_code", "CIV"), ("entity_name", "Cote dIvoire"), ("value", "1.5")]
     (by decide)⟩

/-- Claim C10: `UNAIDS()` constructed without arguments does not verify the
remote SSL certificate; certificate verification happens exactly when
`verify_ssl=True` is passed to the constructor. -/
theorem unaids_ssl_default :
    UNAIDS.requestVerifiesCert UNAIDS.construct_default = false
    ∧ ∀ b : Bool,
        (UNAIDS.requestVerifiesCert (UNAIDS.construct b) = true ↔ b = true) :=
  ⟨rfl, fun _ => Iff.rfl⟩
